import Mathlib

/-!
Verification of `src/Translate.py` (AzureTranslate).

The script drives the Azure Custom Translator management API: it creates a
project (`criar_projeto`), uploads two training files (`carregar_arquivos`),
starts model training (`treinar_modelo`), and optionally invokes the trained
model through the SDK (`traduzir_com_modelo_personalizado`).  The `__main__`
block sequences the first three calls inside one try/except.

Shallow embedding: the HTTP layer is an oracle mapping each request the script
builds to a mocked response (status, reason phrase, JSON body); the filesystem
is a finite map from path to content; each Python function becomes a Lean
function returning the list of requests it actually sent, the lines it
printed, and an `Except PyError` result mirroring raised exceptions.
-/

namespace AzureTranslate

/- JSON values, restricted to the shapes this script produces and consumes
(strings and string-keyed objects).  A mutual inductive (rather than
`List (String × Json)` nested in `obj`) keeps all recursions structural. -/
mutual

/-- A JSON value: a string or a string-keyed object. -/
inductive Json where
  | str : String → Json
  | obj : JsonPairs → Json
deriving DecidableEq

/-- The ordered key/value pairs of a JSON object. -/
inductive JsonPairs where
  | nil : JsonPairs
  | cons : String → Json → JsonPairs → JsonPairs
deriving DecidableEq

end

/-- Build an object from a list of key/value pairs (writing convenience). -/
def JsonPairs.ofList : List (String × Json) → JsonPairs
  | [] => .nil
  | (k, v) :: rest => .cons k v (JsonPairs.ofList rest)

/-- `Json.obj` from a plain list of pairs. -/
def Json.mkObj (l : List (String × Json)) : Json :=
  .obj (JsonPairs.ofList l)

/-- First binding of a key in an object body (Python dict lookup; the script
never builds duplicate keys). -/
def JsonPairs.lookup : JsonPairs → String → Option Json
  | .nil, _ => none
  | .cons k v rest, key => if k = key then some v else rest.lookup key

mutual

/-- Serialize a JSON value, the text form the mocked server body stands for
(`response.text` of the model). -/
def Json.render : Json → String
  | .str s => "\"" ++ s ++ "\""
  | .obj ps => "\x7b" ++ ps.render ++ "\x7d"

/-- Serialize the pair list of an object. -/
def JsonPairs.render : JsonPairs → String
  | .nil => ""
  | .cons k v .nil => "\"" ++ k ++ "\": " ++ v.render
  | .cons k v rest => "\"" ++ k ++ "\": " ++ v.render ++ ", " ++ rest.render

end

mutual

/-- Python `repr` of the value (single-quoted strings, braced dicts). -/
def Json.pyRepr : Json → String
  | .str s => "\x27" ++ s ++ "\x27"
  | .obj ps => "\x7b" ++ ps.pyRepr ++ "\x7d"

/-- Python `repr` of the pair list of a dict. -/
def JsonPairs.pyRepr : JsonPairs → String
  | .nil => ""
  | .cons k v .nil => "\x27" ++ k ++ "\x27: " ++ v.pyRepr
  | .cons k v rest => "\x27" ++ k ++ "\x27: " ++ v.pyRepr ++ ", " ++ rest.pyRepr

end

/-- Python `str()` / f-string interpolation of the value: a string
interpolates verbatim, a dict falls back to its `repr`. -/
def Json.pyStr : Json → String
  | .str s => s
  | .obj ps => "\x7b" ++ ps.pyRepr ++ "\x7d"

/-- One part of a multipart upload, as an entry of the `files=` list handed to
`requests.post`: `(field, (filename, file content, content type))`. -/
structure FilePart where
  field : String
  filename : String
  content : String
  contentType : String
deriving DecidableEq

/-- An HTTP request as this script builds it: method, url, headers, optional
`json=` body, `files=` multipart parts, `params=` query parameters. -/
structure Request where
  method : String
  url : String
  headers : List (String × String)
  jsonBody : Option Json
  files : List FilePart
  params : List (String × String)
deriving DecidableEq

/-- A response as seen by the script: status code, reason phrase, body (as
parsed JSON; `text` below is its serialization), and the request url
(`requests` copies it onto the response). -/
structure Response where
  status : Nat
  reason : String
  body : Json
  url : String
deriving DecidableEq

/-- `response.text`: the raw body text. -/
def Response.text (r : Response) : String :=
  r.body.render

/-- The Python exceptions this script can raise or catch:
`requests.exceptions.HTTPError` (carrying the response), `KeyError` from a
missing dict key, `FileNotFoundError` from `open`. -/
inductive PyError where
  | httpError (resp : Response)
  | keyError (key : String)
  | typeError (msg : String)
  | fileNotFoundError (path : String)
deriving DecidableEq

/-- A mocked server behavior: what status/reason/body come back. -/
structure MockResponse where
  status : Nat
  reason : String
  body : Json
deriving DecidableEq

/-- The HTTP oracle: the (mocked) remote service. -/
def Http : Type := Request → MockResponse

/-- Issue a request: the response carries the request url. -/
def send (http : Http) (req : Request) : Response :=
  let m := http req
  { status := m.status, reason := m.reason, body := m.body, url := req.url }

/-- `requests.Response.raise_for_status` raises exactly on 4xx/5xx. -/
def nonSuccess (status : Nat) : Prop :=
  400 ≤ status ∧ status < 600

instance (status : Nat) : Decidable (nonSuccess status) := by
  unfold nonSuccess; infer_instance

/-- `str(e)` of the `HTTPError` raised by `raise_for_status`. -/
def httpErrorStr (r : Response) : String :=
  if r.status < 500 then
    toString r.status ++ " Client Error: " ++ r.reason ++ " for url: " ++ r.url
  else
    toString r.status ++ " Server Error: " ++ r.reason ++ " for url: " ++ r.url

/-- `response.raise_for_status()` (line 41/63/75). -/
def raise_for_status (r : Response) : Except PyError Unit :=
  if nonSuccess r.status then .error (.httpError r) else .ok ()

/-- Python dict indexing `body[key]`: the value, a raised `KeyError` when the
key is absent, or a raised `TypeError` when the parsed body is a string. -/
def Json.getKey (j : Json) (key : String) : Except PyError Json :=
  match j with
  | .str _ => .error (.typeError "string indices must be integers")
  | .obj ps =>
    match ps.lookup key with
    | some v => .ok v
    | none => .error (.keyError key)

/-- The environment of the script: the three values read from `.env`
(`os.getenv` returns `None` when absent, hence `Option`). -/
structure Config where
  TRANSLATOR_KEY : Option String
  TRANSLATOR_ENDPOINT : Option String
  WORKSPACE_ID : Option String

/-- f-string interpolation of an `os.getenv` result (`None` prints as such). -/
def pyInterp : Option String → String
  | some s => s
  | none => "None"

/-- Line 20: the fixed management API endpoint. -/
def CUSTOM_TRANSLATOR_API_ENDPOINT : String :=
  "https://portal.customtranslator.azure.ai"

/-- The request `criar_projeto` builds (lines 27-40). -/
def criar_projeto_request (cfg : Config)
    (nome_projeto categoria_projeto lang_origem lang_destino : String) : Request :=
  { method := "POST"
    url := CUSTOM_TRANSLATOR_API_ENDPOINT ++ "/api/texttranslator/v1.0/workspaces/"
           ++ pyInterp cfg.WORKSPACE_ID ++ "/projects"
    headers := [("Ocp-Apim-Subscription-Key", pyInterp cfg.TRANSLATOR_KEY),
                ("Content-Type", "application/json")]
    jsonBody := some (Json.mkObj
      [("name", .str nome_projeto),
       ("languagePair", Json.mkObj
         [("sourceLanguage", Json.mkObj [("code", .str lang_origem)]),
          ("targetLanguage", Json.mkObj [("code", .str lang_destino)])]),
       ("category", .str categoria_projeto),
       ("description", .str ("Modelo para traduzir termos de " ++ categoria_projeto ++ "."))])
    files := []
    params := [] }

/-- `criar_projeto` (lines 25-46): post the project body, raise on bad status,
return `response.json()["id"]`.  Result: requests sent, printed lines, and the
returned project id or raised error. -/
def criar_projeto (cfg : Config) (http : Http)
    (nome_projeto categoria_projeto lang_origem lang_destino : String) :
    List Request × List String × Except PyError Json :=
  let req := criar_projeto_request cfg nome_projeto categoria_projeto lang_origem lang_destino
  let out0 := ["1. Criando o projeto \x27" ++ nome_projeto ++ "\x27..."]
  let resp := send http req
  match raise_for_status resp with
  | .error e => ([req], out0, .error e)
  | .ok _ =>
    match resp.body.getKey "id" with
    | .error e => ([req], out0, .error e)
    | .ok project_id =>
      ([req],
       out0 ++ ["   -> Projeto criado com sucesso. ID: " ++ project_id.pyStr],
       .ok project_id)

/-- The local filesystem: path to file content (text files only here). -/
def FS : Type := String → Option String

/-- `open(path, "w").write(content)` : record the content at the path. -/
def FS.write (fs : FS) (path content : String) : FS :=
  fun q => if q = path then some content else fs q

/-- `open(path, "rb")` followed by reading: the content, or a raised
`FileNotFoundError`. -/
def FS.read (fs : FS) (path : String) : Except PyError String :=
  match fs path with
  | some c => .ok c
  | none => .error (.fileNotFoundError path)

/-- `os.path.basename` (POSIX): the part after the last slash. -/
def basename (p : String) : String :=
  (p.splitOn "/").getLastD p

/-- The request `carregar_arquivos` builds (lines 51-58), given the two file
contents already read: two multipart parts under the field `files`, source
file first, plus the `documentType`/`languageCode` query parameters. -/
def carregar_arquivos_request (cfg : Config) (project_id : Json)
    (arquivo_origem arquivo_destino lang_origem_code : String)
    (conteudo_origem conteudo_destino : String) : Request :=
  { method := "POST"
    url := CUSTOM_TRANSLATOR_API_ENDPOINT ++ "/api/texttranslator/v1.0/projects/"
           ++ project_id.pyStr ++ "/documents"
    headers := [("Ocp-Apim-Subscription-Key", pyInterp cfg.TRANSLATOR_KEY)]
    jsonBody := none
    files := [{ field := "files", filename := basename arquivo_origem,
                content := conteudo_origem, contentType := "text/plain" },
              { field := "files", filename := basename arquivo_destino,
                content := conteudo_destino, contentType := "text/plain" }]
    params := [("documentType", "training"), ("languageCode", lang_origem_code)] }

/-- `carregar_arquivos` (lines 49-64): open both training files in binary
mode, post them as a multipart request, raise on bad status.  Returns the
requests sent, the printed lines, and unit or the raised error. -/
def carregar_arquivos (cfg : Config) (http : Http) (fs : FS) (project_id : Json)
    (arquivo_origem arquivo_destino lang_origem_code : String) :
    List Request × List String × Except PyError Unit :=
  match fs.read arquivo_origem with
  | .error e => ([], [], .error e)
  | .ok conteudo_origem =>
  match fs.read arquivo_destino with
  | .error e => ([], [], .error e)
  | .ok conteudo_destino =>
    let req := carregar_arquivos_request cfg project_id arquivo_origem arquivo_destino
                 lang_origem_code conteudo_origem conteudo_destino
    let out0 := ["2. Fazendo upload dos arquivos para o projeto " ++ project_id.pyStr ++ "..."]
    let resp := send http req
    match raise_for_status resp with
    | .error e => ([req], out0, .error e)
    | .ok _ => ([req], out0 ++ ["   -> Upload dos arquivos concluído."], .ok ())

/-- The request `treinar_modelo` builds (lines 69-74): a JSON body naming the
model, posted to the project model collection. -/
def treinar_modelo_request (cfg : Config) (project_id : Json)
    (nome_modelo : String) : Request :=
  { method := "POST"
    url := CUSTOM_TRANSLATOR_API_ENDPOINT ++ "/api/texttranslator/v1.0/projects/"
           ++ project_id.pyStr ++ "/models"
    headers := [("Ocp-Apim-Subscription-Key", pyInterp cfg.TRANSLATOR_KEY),
                ("Content-Type", "application/json")]
    jsonBody := some (Json.mkObj [("name", .str nome_modelo)])
    files := []
    params := [] }

/-- `treinar_modelo` (lines 67-82): post the model name, raise on bad status,
return `response.json()["id"]`. -/
def treinar_modelo (cfg : Config) (http : Http) (project_id : Json)
    (nome_modelo : String) :
    List Request × List String × Except PyError Json :=
  let req := treinar_modelo_request cfg project_id nome_modelo
  let out0 := ["3. Iniciando o treinamento do modelo \x27" ++ nome_modelo ++ "\x27..."]
  let resp := send http req
  match raise_for_status resp with
  | .error e => ([req], out0, .error e)
  | .ok _ =>
    match resp.body.getKey "id" with
    | .error e => ([req], out0, .error e)
    | .ok model_id =>
      ([req],
       out0 ++ ["   -> Treinamento iniciado. ID do modelo: " ++ model_id.pyStr,
                "\nAVISO: O treinamento pode levar várias horas.",
                "Monitore o status em: https://portal.customtranslator.azure.ai/"],
       .ok model_id)

/-- A request to the SDK translation client (`client.translate`, line 105):
the texts, target language and category id it is given. -/
structure TranslateRequest where
  content : List String
  to_language : String
  category_id : String
deriving DecidableEq

/-- One translation variant inside a result item: target-language tag and
translated text (`translated_text.to`, `translated_text.text`). -/
structure TranslatedText where
  «to» : String
  text : String
deriving DecidableEq

/-- One per-input result item: the original text and its translations. -/
structure TranslationItem where
  source_text : String
  translations : List TranslatedText
deriving DecidableEq

/-- The SDK client oracle: the (mocked) translation service. -/
def TClient : Type := TranslateRequest → List TranslationItem

/-- Line 100: the fixed list of texts the invoker submits. -/
def textos_para_traduzir : List String :=
  ["The team will discuss the Product Backlog during Sprint Planning.",
   "We need to refine the user stories and fix the bugs."]

/-- `traduzir_com_modelo_personalizado` (lines 87-116): compute the category
id by concatenation, submit one translate call, print every translation
variant with its target tag.  Returns the translate requests made and the
printed lines. -/
def traduzir_com_modelo_personalizado (cfg : Config) (client : TClient)
    (categoria_projeto lang_destino : String) :
    List TranslateRequest × List String :=
  let category_id := pyInterp cfg.WORKSPACE_ID ++ categoria_projeto
  let req : TranslateRequest :=
    { content := textos_para_traduzir, to_language := lang_destino,
      category_id := category_id }
  let response := client req
  ([req],
   ["\n--- Usando o Modelo Personalizado (Categoria: " ++ category_id ++ ") ---",
    "Resultados da tradução:"]
   ++ response.flatMap (fun translation =>
        ("Texto original: \x27" ++ translation.source_text ++ "\x27")
        :: translation.translations.map (fun translated_text =>
             "  -> Tradução (" ++ translated_text.«to» ++ "): \x27"
             ++ translated_text.text ++ "\x27")))

/- The `__main__` block constants (lines 123-126). -/

/-- Line 123. -/
def NOME_DO_PROJETO : String := "MeuProjetoTraducaoAgil"

/-- Line 124. -/
def CATEGORIA_DO_PROJETO : String := "Agilidade"

/-- Line 125. -/
def IDIOMA_ORIGEM : String := "en"

/-- Line 126. -/
def IDIOMA_DESTINO : String := "pt"

/-- The two `except` clauses (lines 144-148): an `HTTPError` is reported with
its text AND the raw response body; any other exception is reported
generically. -/
def handleError : PyError → List String
  | .httpError resp =>
    ["\nERRO na API de gerenciamento: " ++ httpErrorStr resp,
     "Detalhes do erro: " ++ resp.text]
  | .keyError key =>
    ["Ocorreu um erro inesperado: \x27" ++ key ++ "\x27"]
  | .typeError msg =>
    ["Ocorreu um erro inesperado: " ++ msg]
  | .fileNotFoundError path =>
    ["Ocorreu um erro inesperado: [Errno 2] No such file or directory: \x27"
     ++ path ++ "\x27"]

/-- Line 135: the content written to `en-training.txt`. -/
def en_training_content : String :=
  "Product Backlog\nSprint Planning\nDaily Scrum\n"

/-- Line 137: the content written to `pt-br-training.txt`. -/
def pt_br_training_content : String :=
  "Backlog do Produto\nPlanejamento da Sprint\nReunião Diária\n"

/-- The project-creation request `__main__` issues (line 140). -/
def main_criar_request (cfg : Config) : Request :=
  criar_projeto_request cfg NOME_DO_PROJETO CATEGORIA_DO_PROJETO IDIOMA_ORIGEM IDIOMA_DESTINO

/-- The document-upload request `__main__` issues (line 141), given the
project id obtained at line 140. -/
def main_upload_request (cfg : Config) (id_projeto : Json) : Request :=
  carregar_arquivos_request cfg id_projeto "en-training.txt" "pt-br-training.txt"
    IDIOMA_ORIGEM en_training_content pt_br_training_content

/-- The model-training request `__main__` issues (line 142), given the
project id obtained at line 140. -/
def main_train_request (cfg : Config) (id_projeto : Json) : Request :=
  treinar_modelo_request cfg id_projeto ("Modelo" ++ CATEGORIA_DO_PROJETO ++ "_v1")

/-- The try block of `__main__` (lines 132-148): write the two training
files, then create the project, upload the files and start training, each
step feeding the project id forward; stop at the first raised error and
report it per the except clauses.  Returns the management requests sent (in
order), everything printed, and — for inspection — the project id and model
id bound on the all-success path. -/
def etapa1 (cfg : Config) (http : Http) (fs0 : FS) :
    List Request × List String × Except PyError (Json × Json) :=
  let fs1 := fs0.write "en-training.txt" en_training_content
  let fs := fs1.write "pt-br-training.txt" pt_br_training_content
  let (reqs1, out1, r1) :=
    criar_projeto cfg http NOME_DO_PROJETO CATEGORIA_DO_PROJETO IDIOMA_ORIGEM IDIOMA_DESTINO
  match r1 with
  | .error e => (reqs1, out1 ++ handleError e, .error e)
  | .ok id_projeto =>
    let (reqs2, out2, r2) :=
      carregar_arquivos cfg http fs id_projeto "en-training.txt" "pt-br-training.txt" IDIOMA_ORIGEM
    match r2 with
    | .error e => (reqs1 ++ reqs2, out1 ++ out2 ++ handleError e, .error e)
    | .ok _ =>
      let (reqs3, out3, r3) :=
        treinar_modelo cfg http id_projeto ("Modelo" ++ CATEGORIA_DO_PROJETO ++ "_v1")
      match r3 with
      | .error e => (reqs1 ++ reqs2 ++ reqs3, out1 ++ out2 ++ out3 ++ handleError e, .error e)
      | .ok model_id => (reqs1 ++ reqs2 ++ reqs3, out1 ++ out2 ++ out3, .ok (id_projeto, model_id))

/- Concrete fixtures used by the scenario witnesses below. -/

/-- A configured environment (all three `.env` values present). -/
def testConfig : Config :=
  { TRANSLATOR_KEY := some "test-key"
    TRANSLATOR_ENDPOINT := some "https://api.cognitive.microsofttranslator.com/"
    WORKSPACE_ID := some "ws1" }

/-- An empty filesystem. -/
def emptyFS : FS := fun _ => none

/-- A mocked success response assigning project id `proj-1`. -/
def mockProjCreated : MockResponse :=
  { status := 201, reason := "Created", body := Json.mkObj [("id", .str "proj-1")] }

/-- A mocked 400 response with body `\x7b"error": "bad language code"\x7d`. -/
def mockBadRequest : MockResponse :=
  { status := 400, reason := "Bad Request",
    body := Json.mkObj [("error", .str "bad language code")] }

/-- A mocked success response whose body has no `id` field. -/
def mockNoId : MockResponse :=
  { status := 200, reason := "OK", body := Json.mkObj [("status", .str "ok")] }

/-- Scenario A oracle: success responses `\x7b"id": "proj-1"\x7d` for project
creation, `\x7b\x7d` for upload, `\x7b"id": "model-1"\x7d` for training,
dispatched on the request url. -/
def scenarioA_http : Http := fun req =>
  if req.url = (main_criar_request testConfig).url then
    { status := 201, reason := "Created", body := Json.mkObj [("id", .str "proj-1")] }
  else if req.url = (main_upload_request testConfig (.str "proj-1")).url then
    { status := 200, reason := "OK", body := Json.mkObj [] }
  else
    { status := 201, reason := "Created", body := Json.mkObj [("id", .str "model-1")] }

/-- Scenario B oracle: every management call fails with the mocked 400. -/
def scenarioB_http : Http := fun _ => mockBadRequest

/-- C2: for every project-creation call whose HTTP response is a success, the
identifier `criar_projeto` returns equals the value of the `id` field of the
response body, for all caller-supplied name, category and language strings. -/
theorem criar_projeto_success_returns_id (cfg : Config) (m : MockResponse)
    (hs : ¬ nonSuccess m.status) (v : Json) (hid : m.body.getKey "id" = .ok v)
    (nome_projeto categoria_projeto lang_origem lang_destino : String) :
    (criar_projeto cfg (fun _ => m) nome_projeto categoria_projeto
        lang_origem lang_destino).2.2 = .ok v := by
  simp [criar_projeto, send, raise_for_status, hs, hid]

/-- Witness for C2 at the concrete 201 response with id `proj-1`. -/
theorem criar_projeto_success_returns_id_witness :
    (criar_projeto testConfig (fun _ => mockProjCreated) "MeuProjetoTraducaoAgil"
        "Agilidade" "en" "pt").2.2 = .ok (.str "proj-1") :=
  criar_projeto_success_returns_id testConfig mockProjCreated (by decide)
    (.str "proj-1") rfl "MeuProjetoTraducaoAgil" "Agilidade" "en" "pt"

/-- C7: for every model-training call whose HTTP response is a success,
`treinar_modelo` posts a JSON body naming the model to the project model
collection endpoint and returns the `id` field of the response body. -/
theorem treinar_modelo_posts_name_returns_id (cfg : Config) (m : MockResponse)
    (hs : ¬ nonSuccess m.status) (v : Json) (hid : m.body.getKey "id" = .ok v)
    (project_id : Json) (nome_modelo : String) :
    (treinar_modelo cfg (fun _ => m) project_id nome_modelo).1
        = [treinar_modelo_request cfg project_id nome_modelo]
    ∧ (treinar_modelo_request cfg project_id nome_modelo).jsonBody
        = some (Json.mkObj [("name", .str nome_modelo)])
    ∧ (treinar_modelo_request cfg project_id nome_modelo).url
        = CUSTOM_TRANSLATOR_API_ENDPOINT ++ "/api/texttranslator/v1.0/projects/"
          ++ project_id.pyStr ++ "/models"
    ∧ (treinar_modelo cfg (fun _ => m) project_id nome_modelo).2.2 = .ok v := by
  refine ⟨?_, rfl, rfl, ?_⟩ <;>
    simp [treinar_modelo, send, raise_for_status, hs, hid]

/-- Witness for C7 at a concrete success response with id `model-1`. -/
theorem treinar_modelo_posts_name_returns_id_witness :
    (treinar_modelo testConfig
        (fun _ => { status := 201, reason := "Created",
                    body := Json.mkObj [("id", .str "model-1")] })
        (.str "proj-1") "ModeloAgilidade_v1").2.2 = .ok (.str "model-1") :=
  (treinar_modelo_posts_name_returns_id testConfig
    { status := 201, reason := "Created", body := Json.mkObj [("id", .str "model-1")] }
    (by decide) (.str "model-1") rfl (.str "proj-1") "ModeloAgilidade_v1").2.2.2

/-- C10: a success response whose body lacks an `id` field makes project
creation and model training fail with a `KeyError`, which the top-level
handler reports as the generic unexpected-error kind, not the HTTP-status
kind. -/
theorem success_without_id_is_generic_error (cfg : Config) (m : MockResponse)
    (hs : ¬ nonSuccess m.status)
    (hid : m.body.getKey "id" = .error (.keyError "id"))
    (nome_projeto categoria_projeto lang_origem lang_destino : String)
    (project_id : Json) (nome_modelo : String) :
    (criar_projeto cfg (fun _ => m) nome_projeto categoria_projeto
        lang_origem lang_destino).2.2 = .error (.keyError "id")
    ∧ (treinar_modelo cfg (fun _ => m) project_id nome_modelo).2.2
        = .error (.keyError "id")
    ∧ handleError (.keyError "id") = ["Ocorreu um erro inesperado: \x27id\x27"] := by
  refine ⟨?_, ?_, rfl⟩ <;>
    simp [criar_projeto, treinar_modelo, send, raise_for_status, hs, hid]

/-- Witness for C10 at the concrete 200 response without an `id` field. -/
theorem success_without_id_is_generic_error_witness :
    (criar_projeto testConfig (fun _ => mockNoId) "MeuProjetoTraducaoAgil"
        "Agilidade" "en" "pt").2.2 = .error (.keyError "id") :=
  (success_without_id_is_generic_error testConfig mockNoId (by decide) rfl
    "MeuProjetoTraducaoAgil" "Agilidade" "en" "pt" (.str "proj-1") "ModeloAgilidade_v1").1

/-- C4: the composite category identifier computed by
`traduzir_com_modelo_personalizado` is the exact concatenation of the
workspace identifier and the category label, with no separator, for all
non-empty inputs. -/
theorem category_id_is_exact_concatenation (cfg : Config) (w : String)
    (hw : cfg.WORKSPACE_ID = some w) (_hwne : w ≠ "")
    (categoria_projeto : String) (_hcne : categoria_projeto ≠ "")
    (client : TClient) (lang_destino : String) :
    ∃ req : TranslateRequest,
      (traduzir_com_modelo_personalizado cfg client categoria_projeto lang_destino).1 = [req]
      ∧ req.category_id = w ++ categoria_projeto := by
  refine ⟨_, rfl, ?_⟩
  simp [traduzir_com_modelo_personalizado, pyInterp, hw]

/-- Witness for C4 at workspace `ws1` and category `Agilidade`. -/
theorem category_id_is_exact_concatenation_witness :
    ∃ req : TranslateRequest,
      (traduzir_com_modelo_personalizado testConfig (fun _ => []) "Agilidade" "pt").1 = [req]
      ∧ req.category_id = "ws1" ++ "Agilidade" :=
  category_id_is_exact_concatenation testConfig "ws1" rfl (by decide)
    "Agilidade" (by decide) (fun _ => []) "pt"

/-- Helper: whenever both files open, `carregar_arquivos` sends exactly its
one multipart request, whatever the response status. -/
theorem carregar_arquivos_sends_one (cfg : Config) (http : Http) (fs : FS)
    (project_id : Json) (arquivo_origem arquivo_destino lang_origem_code : String)
    (conteudo_origem conteudo_destino : String)
    (h1 : fs arquivo_origem = some conteudo_origem)
    (h2 : fs arquivo_destino = some conteudo_destino) :
    (carregar_arquivos cfg http fs project_id arquivo_origem arquivo_destino
        lang_origem_code).1
      = [carregar_arquivos_request cfg project_id arquivo_origem arquivo_destino
          lang_origem_code conteudo_origem conteudo_destino] := by
  simp only [carregar_arquivos, FS.read, h1, h2]
  cases raise_for_status (send http (carregar_arquivos_request cfg project_id
    arquivo_origem arquivo_destino lang_origem_code conteudo_origem conteudo_destino)) <;>
    rfl

/-- C3: every invocation of `carregar_arquivos` submits exactly two file
parts, both under the single field name `files`, source file first and target
file second. -/
theorem carregar_arquivos_two_ordered_parts (cfg : Config) (http : Http) (fs : FS)
    (project_id : Json) (arquivo_origem arquivo_destino lang_origem_code : String)
    (conteudo_origem conteudo_destino : String)
    (h1 : fs arquivo_origem = some conteudo_origem)
    (h2 : fs arquivo_destino = some conteudo_destino) :
    ∃ req : Request,
      (carregar_arquivos cfg http fs project_id arquivo_origem arquivo_destino
          lang_origem_code).1 = [req]
      ∧ req.files =
        [{ field := "files", filename := basename arquivo_origem,
           content := conteudo_origem, contentType := "text/plain" },
         { field := "files", filename := basename arquivo_destino,
           content := conteudo_destino, contentType := "text/plain" }] :=
  ⟨_, carregar_arquivos_sends_one cfg http fs project_id arquivo_origem arquivo_destino
        lang_origem_code conteudo_origem conteudo_destino h1 h2, rfl⟩

/-- Witness for C3 on a filesystem holding the two training files. -/
theorem carregar_arquivos_two_ordered_parts_witness :
    ∃ req : Request,
      (carregar_arquivos testConfig (fun _ => mockProjCreated)
          (fun p => if p = "en-training.txt" then some en_training_content
                    else some pt_br_training_content)
          (.str "proj-1") "en-training.txt" "pt-br-training.txt" "en").1 = [req]
      ∧ req.files =
        [{ field := "files", filename := basename "en-training.txt",
           content := en_training_content, contentType := "text/plain" },
         { field := "files", filename := basename "pt-br-training.txt",
           content := pt_br_training_content, contentType := "text/plain" }] :=
  carregar_arquivos_two_ordered_parts testConfig (fun _ => mockProjCreated)
    (fun p => if p = "en-training.txt" then some en_training_content
              else some pt_br_training_content)
    (.str "proj-1") "en-training.txt" "pt-br-training.txt" "en"
    en_training_content pt_br_training_content (by decide) (by decide)

/-- C8: every document-upload request carries exactly the query parameters
declaring document type `training` and the caller-supplied source language
code. -/
theorem carregar_arquivos_query_params (cfg : Config) (http : Http) (fs : FS)
    (project_id : Json) (arquivo_origem arquivo_destino lang_origem_code : String)
    (conteudo_origem conteudo_destino : String)
    (h1 : fs arquivo_origem = some conteudo_origem)
    (h2 : fs arquivo_destino = some conteudo_destino) :
    ∃ req : Request,
      (carregar_arquivos cfg http fs project_id arquivo_origem arquivo_destino
          lang_origem_code).1 = [req]
      ∧ req.params = [("documentType", "training"), ("languageCode", lang_origem_code)] :=
  ⟨_, carregar_arquivos_sends_one cfg http fs project_id arquivo_origem arquivo_destino
        lang_origem_code conteudo_origem conteudo_destino h1 h2, rfl⟩

/-- Witness for C8 at source language code `en`. -/
theorem carregar_arquivos_query_params_witness :
    ∃ req : Request,
      (carregar_arquivos testConfig (fun _ => mockProjCreated)
          (fun _ => some en_training_content)
          (.str "proj-1") "en-training.txt" "pt-br-training.txt" "en").1 = [req]
      ∧ req.params = [("documentType", "training"), ("languageCode", "en")] :=
  carregar_arquivos_query_params testConfig (fun _ => mockProjCreated)
    (fun _ => some en_training_content)
    (.str "proj-1") "en-training.txt" "pt-br-training.txt" "en"
    en_training_content en_training_content rfl rfl

/-- C1: every management call (project creation, document upload, model
training) that receives a non-success HTTP status raises an `HTTPError`
carrying the response, whose body text the top-level handler prints
verbatim. -/
theorem management_nonsuccess_error_carries_body (cfg : Config) (m : MockResponse)
    (hm : nonSuccess m.status)
    (nome_projeto categoria_projeto lang_origem lang_destino : String)
    (fs : FS) (project_id : Json)
    (arquivo_origem arquivo_destino lang_origem_code : String)
    (conteudo_origem conteudo_destino : String)
    (h1 : fs arquivo_origem = some conteudo_origem)
    (h2 : fs arquivo_destino = some conteudo_destino)
    (nome_modelo : String) :
    (∃ resp : Response,
      (criar_projeto cfg (fun _ => m) nome_projeto categoria_projeto
          lang_origem lang_destino).2.2 = .error (.httpError resp)
      ∧ resp.text = m.body.render
      ∧ "Detalhes do erro: " ++ m.body.render ∈ handleError (.httpError resp))
    ∧ (∃ resp : Response,
      (carregar_arquivos cfg (fun _ => m) fs project_id arquivo_origem
          arquivo_destino lang_origem_code).2.2 = .error (.httpError resp)
      ∧ resp.text = m.body.render
      ∧ "Detalhes do erro: " ++ m.body.render ∈ handleError (.httpError resp))
    ∧ (∃ resp : Response,
      (treinar_modelo cfg (fun _ => m) project_id nome_modelo).2.2
        = .error (.httpError resp)
      ∧ resp.text = m.body.render
      ∧ "Detalhes do erro: " ++ m.body.render ∈ handleError (.httpError resp)) := by
  refine ⟨⟨send (fun _ => m) (criar_projeto_request cfg nome_projeto categoria_projeto
            lang_origem lang_destino), ?_, ?_, ?_⟩,
          ⟨send (fun _ => m) (carregar_arquivos_request cfg project_id arquivo_origem
            arquivo_destino lang_origem_code conteudo_origem conteudo_destino), ?_, ?_, ?_⟩,
          ⟨send (fun _ => m) (treinar_modelo_request cfg project_id nome_modelo),
            ?_, ?_, ?_⟩⟩
  · simp [criar_projeto, send, raise_for_status, hm]
  · simp [Response.text, send]
  · simp [handleError, Response.text, send]
  · simp [carregar_arquivos, FS.read, h1, h2, send, raise_for_status, hm]
  · simp [Response.text, send]
  · simp [handleError, Response.text, send]
  · simp [treinar_modelo, send, raise_for_status, hm]
  · simp [Response.text, send]
  · simp [handleError, Response.text, send]

/-- Witness for C1 at the concrete 400 response. -/
theorem management_nonsuccess_error_carries_body_witness :
    ∃ resp : Response,
      (criar_projeto testConfig (fun _ => mockBadRequest) "MeuProjetoTraducaoAgil"
          "Agilidade" "en" "pt").2.2 = .error (.httpError resp)
      ∧ resp.text = mockBadRequest.body.render
      ∧ "Detalhes do erro: " ++ mockBadRequest.body.render
          ∈ handleError (.httpError resp) :=
  (management_nonsuccess_error_carries_body testConfig mockBadRequest (by decide)
    "MeuProjetoTraducaoAgil" "Agilidade" "en" "pt"
    (fun _ => some en_training_content) (.str "proj-1")
    "en-training.txt" "pt-br-training.txt" "en"
    en_training_content en_training_content rfl rfl "ModeloAgilidade_v1").1

/-- C5: if project creation answers with a non-success status, the pipeline
sends exactly that one request (upload and training are never attempted),
fails with an `HTTPError` carrying the response, and prints the response body
text in the error details. -/
theorem etapa1_create_failure_stops (cfg : Config) (http : Http) (fs0 : FS)
    (hm : nonSuccess (http (main_criar_request cfg)).status) :
    (etapa1 cfg http fs0).1 = [main_criar_request cfg]
    ∧ (etapa1 cfg http fs0).2.2
        = .error (.httpError (send http (main_criar_request cfg)))
    ∧ "Detalhes do erro: " ++ (http (main_criar_request cfg)).body.render
        ∈ (etapa1 cfg http fs0).2.1 := by
  have hm' : nonSuccess (http (criar_projeto_request cfg NOME_DO_PROJETO
      CATEGORIA_DO_PROJETO IDIOMA_ORIGEM IDIOMA_DESTINO)).status := hm
  refine ⟨?_, ?_, ?_⟩ <;>
    simp [etapa1, criar_projeto, main_criar_request, send, raise_for_status, hm',
          handleError, Response.text]

/-- Witness for C5 under scenario B: the mocked 400 with body
`\x7b"error": "bad language code"\x7d`; the printed details line carries that
body text. -/
theorem etapa1_create_failure_stops_witness :
    ((etapa1 testConfig scenarioB_http emptyFS).1 = [main_criar_request testConfig]
    ∧ (etapa1 testConfig scenarioB_http emptyFS).2.2
        = .error (.httpError (send scenarioB_http (main_criar_request testConfig)))
    ∧ "Detalhes do erro: " ++ (scenarioB_http (main_criar_request testConfig)).body.render
        ∈ (etapa1 testConfig scenarioB_http emptyFS).2.1)
    ∧ "Detalhes do erro: " ++ (scenarioB_http (main_criar_request testConfig)).body.render
        = "Detalhes do erro: \x7b\"error\": \"bad language code\"\x7d" :=
  ⟨etapa1_create_failure_stops testConfig scenarioB_http emptyFS (by decide), rfl⟩

/-- C6: on the all-success path the project id returned by project creation
is the one embedded in both the upload and training requests, and under the
scenario-A mocks (`id proj-1`, empty upload body, `id model-1`) the pipeline
ends with project id `proj-1` and model id `model-1` without raising. -/
theorem etapa1_success_flow (cfg : Config) (http : Http) (fs0 : FS)
    (id_projeto : Json)
    (h1s : ¬ nonSuccess (http (main_criar_request cfg)).status)
    (h1id : (http (main_criar_request cfg)).body.getKey "id" = .ok id_projeto)
    (h2s : ¬ nonSuccess (http (main_upload_request cfg id_projeto)).status)
    (h3s : ¬ nonSuccess (http (main_train_request cfg id_projeto)).status)
    (model_id : Json)
    (h3id : (http (main_train_request cfg id_projeto)).body.getKey "id" = .ok model_id) :
    (etapa1 cfg http fs0).1
      = [main_criar_request cfg, main_upload_request cfg id_projeto,
         main_train_request cfg id_projeto]
    ∧ (etapa1 cfg http fs0).2.2 = .ok (id_projeto, model_id)
    ∧ (etapa1 testConfig scenarioA_http emptyFS).2.2
        = .ok (.str "proj-1", .str "model-1") := by
  have hfs1 : ((fs0.write "en-training.txt" en_training_content).write
      "pt-br-training.txt" pt_br_training_content) "en-training.txt"
      = some en_training_content := by
    show (if "en-training.txt" = "pt-br-training.txt" then some pt_br_training_content
          else if "en-training.txt" = "en-training.txt" then some en_training_content
          else fs0 "en-training.txt") = some en_training_content
    rw [if_neg (by decide), if_pos rfl]
  have hfs2 : ((fs0.write "en-training.txt" en_training_content).write
      "pt-br-training.txt" pt_br_training_content) "pt-br-training.txt"
      = some pt_br_training_content := by
    show (if "pt-br-training.txt" = "pt-br-training.txt" then some pt_br_training_content
          else if "pt-br-training.txt" = "en-training.txt" then some en_training_content
          else fs0 "pt-br-training.txt") = some pt_br_training_content
    rw [if_pos rfl]
  have h1s' : ¬ nonSuccess (http (criar_projeto_request cfg NOME_DO_PROJETO
      CATEGORIA_DO_PROJETO IDIOMA_ORIGEM IDIOMA_DESTINO)).status := h1s
  have h1id' : (http (criar_projeto_request cfg NOME_DO_PROJETO CATEGORIA_DO_PROJETO
      IDIOMA_ORIGEM IDIOMA_DESTINO)).body.getKey "id" = .ok id_projeto := h1id
  have h2s' : ¬ nonSuccess (http (carregar_arquivos_request cfg id_projeto
      "en-training.txt" "pt-br-training.txt" IDIOMA_ORIGEM en_training_content
      pt_br_training_content)).status := h2s
  have h3s' : ¬ nonSuccess (http (treinar_modelo_request cfg id_projeto
      ("Modelo" ++ CATEGORIA_DO_PROJETO ++ "_v1"))).status := h3s
  have h3id' : (http (treinar_modelo_request cfg id_projeto
      ("Modelo" ++ CATEGORIA_DO_PROJETO ++ "_v1"))).body.getKey "id"
      = .ok model_id := h3id
  refine ⟨?_, ?_, ?_⟩
  · simp [etapa1, criar_projeto, carregar_arquivos, treinar_modelo, FS.read,
          hfs1, hfs2, send, raise_for_status, h1s', h1id', h2s', h3s', h3id',
          main_criar_request, main_upload_request, main_train_request]
  · simp [etapa1, criar_projeto, carregar_arquivos, treinar_modelo, FS.read,
          hfs1, hfs2, send, raise_for_status, h1s', h1id', h2s', h3s', h3id']
  · rfl

/-- Witness for C6 under the scenario-A oracle. -/
theorem etapa1_success_flow_witness :
    (etapa1 testConfig scenarioA_http emptyFS).1
      = [main_criar_request testConfig,
         main_upload_request testConfig (.str "proj-1"),
         main_train_request testConfig (.str "proj-1")]
    ∧ (etapa1 testConfig scenarioA_http emptyFS).2.2
        = .ok (.str "proj-1", .str "model-1") := by
  have h := etapa1_success_flow testConfig scenarioA_http emptyFS (.str "proj-1")
    (by decide) rfl (by decide) (by decide) (.str "model-1") rfl
  exact ⟨h.1, h.2.1⟩

/-- C9: every invocation of the translator invoker submits exactly one
translation request carrying the given target language and the computed
category identifier, and emits every produced translation variant paired with
its target-language tag (alongside each original text). -/
theorem traduzir_one_request_emits_all (cfg : Config) (client : TClient)
    (categoria_projeto lang_destino : String) :
    ∃ req : TranslateRequest,
      (traduzir_com_modelo_personalizado cfg client categoria_projeto lang_destino).1
        = [req]
      ∧ req.to_language = lang_destino
      ∧ req.category_id = pyInterp cfg.WORKSPACE_ID ++ categoria_projeto
      ∧ req.content = textos_para_traduzir
      ∧ ∀ translation ∈ client req,
          ("Texto original: \x27" ++ translation.source_text ++ "\x27")
            ∈ (traduzir_com_modelo_personalizado cfg client categoria_projeto lang_destino).2
          ∧ ∀ translated_text ∈ translation.translations,
              ("  -> Tradução (" ++ translated_text.«to» ++ "): \x27"
                ++ translated_text.text ++ "\x27")
                ∈ (traduzir_com_modelo_personalizado cfg client categoria_projeto
                    lang_destino).2 := by
  refine ⟨_, rfl, rfl, rfl, rfl, ?_⟩
  intro translation htr
  constructor
  · simp only [traduzir_com_modelo_personalizado, List.mem_append, List.mem_flatMap]
    exact Or.inr ⟨translation, htr, List.mem_cons_self _ _⟩
  · intro translated_text htt
    simp only [traduzir_com_modelo_personalizado, List.mem_append, List.mem_flatMap]
    exact Or.inr ⟨translation, htr,
      List.mem_cons_of_mem _ (List.mem_map_of_mem _ htt)⟩

end AzureTranslate
